import Mathlib

/-!
Verification of the Dakhil GPA grading logic of the academic-results-dashboard
repository (`generate_excel.py`).

The core of the program is a pure decision function over a fixed record of 19
raw subject marks: `calculate_grade_point`, `calculate_gpa_dakhil` and
`calculate_letter_grade`, plus the spreadsheet-formula rendering of the same
rules written by `generate_excel_file` into hidden helper columns AA–AO and
the final-GPA column Y.

Numbers are modelled as exact rationals (ℚ).  The thresholds that Python
computes as float products (`200 * 0.33`, `100 * 0.33`, `25 * 0.33`) are
exactly 66, 33 and 8.25 when carried out in ℚ, which coincides with the
values the IEEE-754 double products round to, so the idealization is faithful
on these constants.  Python's `round(x, 2)` rounds half to even (banker's
rounding) and Excel's `ROUND(x, 2)` rounds half away from zero; both are
modelled explicitly below.
-/

/-- A student's raw marks, one field per subject-mark column of the
`Data Source` sheet (columns C through U of `create_data_source`). -/
structure StudentRecord where
  quran : ℚ
  hadith : ℚ
  arabic_I : ℚ
  arabic_II : ℚ
  aqaid : ℚ
  english_I : ℚ
  english_II : ℚ
  bangla_I_MCQ : ℚ
  bangla_I_Written : ℚ
  bangla_II_MCQ : ℚ
  bangla_II_Written : ℚ
  mathematics_MCQ : ℚ
  mathematics_Written : ℚ
  islamic_History_MCQ : ℚ
  islamic_History_Written : ℚ
  ict : ℚ
  mantiq : ℚ
  career_Education : ℚ
  physical_Education : ℚ

/-- Well-formedness: every mark lies between 0 and its column's full marks
(100 for the single subjects, 30 for an MCQ part, 70 for a Written part,
50 for ICT), per the full-marks comments in `create_data_source`. -/
def wellFormed (r : StudentRecord) : Prop :=
  (0 ≤ r.quran ∧ r.quran ≤ 100) ∧
  (0 ≤ r.hadith ∧ r.hadith ≤ 100) ∧
  (0 ≤ r.arabic_I ∧ r.arabic_I ≤ 100) ∧
  (0 ≤ r.arabic_II ∧ r.arabic_II ≤ 100) ∧
  (0 ≤ r.aqaid ∧ r.aqaid ≤ 100) ∧
  (0 ≤ r.english_I ∧ r.english_I ≤ 100) ∧
  (0 ≤ r.english_II ∧ r.english_II ≤ 100) ∧
  (0 ≤ r.bangla_I_MCQ ∧ r.bangla_I_MCQ ≤ 30) ∧
  (0 ≤ r.bangla_I_Written ∧ r.bangla_I_Written ≤ 70) ∧
  (0 ≤ r.bangla_II_MCQ ∧ r.bangla_II_MCQ ≤ 30) ∧
  (0 ≤ r.bangla_II_Written ∧ r.bangla_II_Written ≤ 70) ∧
  (0 ≤ r.mathematics_MCQ ∧ r.mathematics_MCQ ≤ 30) ∧
  (0 ≤ r.mathematics_Written ∧ r.mathematics_Written ≤ 70) ∧
  (0 ≤ r.islamic_History_MCQ ∧ r.islamic_History_MCQ ≤ 30) ∧
  (0 ≤ r.islamic_History_Written ∧ r.islamic_History_Written ≤ 70) ∧
  (0 ≤ r.ict ∧ r.ict ≤ 50) ∧
  (0 ≤ r.mantiq ∧ r.mantiq ≤ 100) ∧
  (0 ≤ r.career_Education ∧ r.career_Education ≤ 100) ∧
  (0 ≤ r.physical_Education ∧ r.physical_Education ≤ 100)

/-- `calculate_grade_point(marks, full_marks)`: percentage, then the fixed
descending bands (≥80 → 5.0, ≥70 → 4.0, ≥60 → 3.5, ≥50 → 3.0, ≥40 → 2.0,
≥33 → 1.0, else 0.0). -/
def calculate_grade_point (marks full_marks : ℚ) : ℚ :=
  let percentage := marks / full_marks * 100
  if percentage ≥ 80 then 5
  else if percentage ≥ 70 then 4
  else if percentage ≥ 60 then 3.5
  else if percentage ≥ 50 then 3
  else if percentage ≥ 40 then 2
  else if percentage ≥ 33 then 1
  else 0

/-- Quran+Hadith combined mark below `full_marks * 0.33` (= 66 of 200). -/
def quran_Hadith_fails (r : StudentRecord) : Prop :=
  r.quran + r.hadith < 200 * 0.33

instance (r : StudentRecord) : Decidable (quran_Hadith_fails r) :=
  inferInstanceAs (Decidable (r.quran + r.hadith < 200 * 0.33))

/-- Arabic I+II combined mark below `full_marks * 0.33` (= 66 of 200). -/
def arabic_fails (r : StudentRecord) : Prop :=
  r.arabic_I + r.arabic_II < 200 * 0.33

instance (r : StudentRecord) : Decidable (arabic_fails r) :=
  inferInstanceAs (Decidable (r.arabic_I + r.arabic_II < 200 * 0.33))

/-- Aqaid mark below `full_marks * 0.33` (= 33 of 100). -/
def aqaid_fails (r : StudentRecord) : Prop :=
  r.aqaid < 100 * 0.33

instance (r : StudentRecord) : Decidable (aqaid_fails r) :=
  inferInstanceAs (Decidable (r.aqaid < 100 * 0.33))

/-- English I+II combined mark below `full_marks * 0.33` (= 66 of 200). -/
def english_fails (r : StudentRecord) : Prop :=
  r.english_I + r.english_II < 200 * 0.33

instance (r : StudentRecord) : Decidable (english_fails r) :=
  inferInstanceAs (Decidable (r.english_I + r.english_II < 200 * 0.33))

/-- Bangla individual route: each MCQ ≥ 10 and each Written ≥ 23. -/
def bangla_individual_pass (r : StudentRecord) : Prop :=
  r.bangla_I_MCQ ≥ 10 ∧ r.bangla_I_Written ≥ 23 ∧
  r.bangla_II_MCQ ≥ 10 ∧ r.bangla_II_Written ≥ 23

instance (r : StudentRecord) : Decidable (bangla_individual_pass r) :=
  inferInstanceAs (Decidable (_ ∧ _ ∧ _ ∧ _))

/-- Bangla combined route: total MCQ ≥ 20 and total Written ≥ 46. -/
def bangla_combined_pass (r : StudentRecord) : Prop :=
  r.bangla_I_MCQ + r.bangla_II_MCQ ≥ 20 ∧
  r.bangla_I_Written + r.bangla_II_Written ≥ 46

instance (r : StudentRecord) : Decidable (bangla_combined_pass r) :=
  inferInstanceAs (Decidable (_ ∧ _))

/-- Bangla fails when neither the individual nor the combined route passes. -/
def bangla_fails (r : StudentRecord) : Prop :=
  ¬ (bangla_individual_pass r ∨ bangla_combined_pass r)

instance (r : StudentRecord) : Decidable (bangla_fails r) :=
  inferInstanceAs (Decidable (¬ (_ ∨ _)))

/-- Mathematics fails unless MCQ ≥ 10 and Written ≥ 23. -/
def mathematics_fails (r : StudentRecord) : Prop :=
  ¬ (r.mathematics_MCQ ≥ 10 ∧ r.mathematics_Written ≥ 23)

instance (r : StudentRecord) : Decidable (mathematics_fails r) :=
  inferInstanceAs (Decidable (¬ (_ ∧ _)))

/-- Islamic History fails unless MCQ ≥ 10 and Written ≥ 23. -/
def islamic_History_fails (r : StudentRecord) : Prop :=
  ¬ (r.islamic_History_MCQ ≥ 10 ∧ r.islamic_History_Written ≥ 23)

instance (r : StudentRecord) : Decidable (islamic_History_fails r) :=
  inferInstanceAs (Decidable (¬ (_ ∧ _)))

/-- ICT fails below `25 * 0.33` (= 8.25), even though ICT is out of 50. -/
def ict_fails (r : StudentRecord) : Prop :=
  r.ict < 25 * 0.33

instance (r : StudentRecord) : Decidable (ict_fails r) :=
  inferInstanceAs (Decidable (r.ict < 25 * 0.33))

/-- Career Education or Physical Education below 33. -/
def continuous_assessment_fails (r : StudentRecord) : Prop :=
  r.career_Education < 33 ∨ r.physical_Education < 33

instance (r : StudentRecord) : Decidable (continuous_assessment_fails r) :=
  inferInstanceAs (Decidable (_ ∨ _))

/-- The grade points of the 8 compulsory subjects, in the dictionary order of
`compulsory_subjects` (Quran+Hadith 200, Arabic 200, Aqaid 100, English 200,
Bangla 200 over its four columns, Mathematics 100, Islamic History 100,
ICT 50). -/
def grade_points (r : StudentRecord) : List ℚ :=
  [calculate_grade_point (r.quran + r.hadith) 200,
   calculate_grade_point (r.arabic_I + r.arabic_II) 200,
   calculate_grade_point r.aqaid 100,
   calculate_grade_point (r.english_I + r.english_II) 200,
   calculate_grade_point
     (r.bangla_I_MCQ + r.bangla_I_Written + r.bangla_II_MCQ + r.bangla_II_Written) 200,
   calculate_grade_point (r.mathematics_MCQ + r.mathematics_Written) 100,
   calculate_grade_point (r.islamic_History_MCQ + r.islamic_History_Written) 100,
   calculate_grade_point r.ict 50]

/-- `base_gpa = sum(grade_points) / len(grade_points)`. -/
def base_gpa (r : StudentRecord) : ℚ :=
  (grade_points r).sum / ((grade_points r).length : ℚ)

/-- `mantiq_gp = calculate_grade_point(row['Mantiq'], 100)`. -/
def mantiq_gp (r : StudentRecord) : ℚ :=
  calculate_grade_point r.mantiq 100

/-- The Mantiq bonus step: if the optional grade point is ≥ 2.0, add
`(mantiq_gp - 2.0) / len(compulsory_subjects)` (8 compulsory subjects). -/
def gpa_before_round (r : StudentRecord) : ℚ :=
  if mantiq_gp r ≥ 2 then base_gpa r + (mantiq_gp r - 2) / 8 else base_gpa r

/-- Round half to even at integer precision: the semantics of Python's
built-in `round` on an exact value. -/
def roundHalfToEven (x : ℚ) : ℤ :=
  if x - ⌊x⌋ < 1/2 then ⌊x⌋
  else if 1/2 < x - ⌊x⌋ then ⌊x⌋ + 1
  else if ⌊x⌋ % 2 = 0 then ⌊x⌋ else ⌊x⌋ + 1

/-- Python's `round(x, 2)` (banker's rounding at two decimals). -/
def pythonRound2 (x : ℚ) : ℚ :=
  (roundHalfToEven (x * 100) : ℚ) / 100

/-- `calculate_gpa_dakhil(row)`: the early-return pass checks in the order of
the `compulsory_subjects` dictionary, then the continuous-assessment gate,
then base GPA, Mantiq bonus, rounding to two decimals and capping at 5.0. -/
def calculate_gpa_dakhil (row : StudentRecord) : ℚ :=
  if quran_Hadith_fails row then 0
  else if arabic_fails row then 0
  else if aqaid_fails row then 0
  else if english_fails row then 0
  else if bangla_fails row then 0
  else if mathematics_fails row then 0
  else if islamic_History_fails row then 0
  else if ict_fails row then 0
  else if continuous_assessment_fails row then 0
  else min 5 (pythonRound2 (gpa_before_round row))

/-- `calculate_letter_grade(gpa)`. -/
def calculate_letter_grade (gpa : ℚ) : String :=
  if gpa ≥ 5 then "A+"
  else if gpa ≥ 4 then "A"
  else if gpa ≥ 3.5 then "A-"
  else if gpa ≥ 3 then "B"
  else if gpa ≥ 2 then "C"
  else if gpa ≥ 1 then "D"
  else "F"

/-- Disjunction of every early-return condition of `calculate_gpa_dakhil`,
in source order. -/
def anyFail (r : StudentRecord) : Prop :=
  quran_Hadith_fails r ∨ arabic_fails r ∨ aqaid_fails r ∨ english_fails r ∨
  bangla_fails r ∨ mathematics_fails r ∨ islamic_History_fails r ∨
  ict_fails r ∨ continuous_assessment_fails r

namespace Excel

/-- The nested-IF band shared by every grade-point formula that
`generate_excel_file` writes (`IF(p>=80,5,IF(p>=70,4,IF(p>=60,3.5,
IF(p>=50,3,IF(p>=40,2,IF(p>=33,1,0))))))`), as a function of the
percentage expression `p` inlined in each formula. -/
def bandIF (p : ℚ) : ℚ :=
  if p ≥ 80 then 5
  else if p ≥ 70 then 4
  else if p ≥ 60 then 3.5
  else if p ≥ 50 then 3
  else if p ≥ 40 then 2
  else if p ≥ 33 then 1
  else 0

/-- Helper column AA: Bangla fail check,
`NOT(OR(AND(J>=10,K>=23,L>=10,M>=23),AND(J+L>=20,K+M>=46)))`. -/
def col_AA (r : StudentRecord) : Prop :=
  ¬ ((r.bangla_I_MCQ ≥ 10 ∧ r.bangla_I_Written ≥ 23 ∧
      r.bangla_II_MCQ ≥ 10 ∧ r.bangla_II_Written ≥ 23) ∨
     (r.bangla_I_MCQ + r.bangla_II_MCQ ≥ 20 ∧
      r.bangla_I_Written + r.bangla_II_Written ≥ 46))

instance (r : StudentRecord) : Decidable (col_AA r) :=
  inferInstanceAs (Decidable (¬ (_ ∨ _)))

/-- Helper column AB: Math fail check, `OR(N<10,O<23)`. -/
def col_AB (r : StudentRecord) : Prop :=
  r.mathematics_MCQ < 10 ∨ r.mathematics_Written < 23

instance (r : StudentRecord) : Decidable (col_AB r) :=
  inferInstanceAs (Decidable (_ ∨ _))

/-- Helper column AC: History fail check, `OR(P<10,Q<23)`. -/
def col_AC (r : StudentRecord) : Prop :=
  r.islamic_History_MCQ < 10 ∨ r.islamic_History_Written < 23

instance (r : StudentRecord) : Decidable (col_AC r) :=
  inferInstanceAs (Decidable (_ ∨ _))

/-- Helper column AD: overall fail check,
`OR((C+D)<66,(E+F)<66,G<33,(H+I)<66,AA,AB,AC,R<8.25,T<33,U<33)`. -/
def col_AD (r : StudentRecord) : Prop :=
  r.quran + r.hadith < 66 ∨ r.arabic_I + r.arabic_II < 66 ∨
  r.aqaid < 33 ∨ r.english_I + r.english_II < 66 ∨
  col_AA r ∨ col_AB r ∨ col_AC r ∨
  r.ict < 8.25 ∨ r.career_Education < 33 ∨ r.physical_Education < 33

instance (r : StudentRecord) : Decidable (col_AD r) :=
  inferInstanceAs (Decidable (_ ∨ _ ∨ _ ∨ _ ∨ _ ∨ _ ∨ _ ∨ _ ∨ _ ∨ _))

/-- Helper column AE: Quran+Hadith GP, `IF(C+D<66,0,band((C+D)/2))`. -/
def col_AE (r : StudentRecord) : ℚ :=
  if r.quran + r.hadith < 66 then 0 else bandIF ((r.quran + r.hadith) / 2)

/-- Helper column AF: Arabic GP, `IF(E+F<66,0,band((E+F)/2))`. -/
def col_AF (r : StudentRecord) : ℚ :=
  if r.arabic_I + r.arabic_II < 66 then 0 else bandIF ((r.arabic_I + r.arabic_II) / 2)

/-- Helper column AG: Aqaid GP, `IF(G<33,0,band(G))`. -/
def col_AG (r : StudentRecord) : ℚ :=
  if r.aqaid < 33 then 0 else bandIF r.aqaid

/-- Helper column AH: English GP, `IF(H+I<66,0,band((H+I)/2))`. -/
def col_AH (r : StudentRecord) : ℚ :=
  if r.english_I + r.english_II < 66 then 0 else bandIF ((r.english_I + r.english_II) / 2)

/-- Helper column AI: Bangla GP, `IF(AA,0,band((J+K+L+M)/2))`. -/
def col_AI (r : StudentRecord) : ℚ :=
  if col_AA r then 0
  else bandIF ((r.bangla_I_MCQ + r.bangla_I_Written + r.bangla_II_MCQ + r.bangla_II_Written) / 2)

/-- Helper column AJ: Math GP, `IF(AB,0,band(N+O))`. -/
def col_AJ (r : StudentRecord) : ℚ :=
  if col_AB r then 0 else bandIF (r.mathematics_MCQ + r.mathematics_Written)

/-- Helper column AK: History GP, `IF(AC,0,band(P+Q))`. -/
def col_AK (r : StudentRecord) : ℚ :=
  if col_AC r then 0 else bandIF (r.islamic_History_MCQ + r.islamic_History_Written)

/-- Helper column AL: ICT GP, `IF(R<8.25,0,band(R*2))`. -/
def col_AL (r : StudentRecord) : ℚ :=
  if r.ict < 8.25 then 0 else bandIF (r.ict * 2)

/-- Helper column AM: Mantiq GP, `IF(S<33,0,band(S))`. -/
def col_AM (r : StudentRecord) : ℚ :=
  if r.mantiq < 33 then 0 else bandIF r.mantiq

/-- Helper column AN: base GPA, `(AE+AF+AG+AH+AI+AJ+AK+AL)/8`. -/
def col_AN (r : StudentRecord) : ℚ :=
  (col_AE r + col_AF r + col_AG r + col_AH r +
   col_AI r + col_AJ r + col_AK r + col_AL r) / 8

/-- Helper column AO: Mantiq bonus, `IF(AM>=2,(AM-2)/8,0)`. -/
def col_AO (r : StudentRecord) : ℚ :=
  if col_AM r ≥ 2 then (col_AM r - 2) / 8 else 0

/-- Excel `ROUND` at integer precision: round half away from zero. -/
def roundHalfAwayFromZero (x : ℚ) : ℤ :=
  if 0 ≤ x then ⌊x + 1/2⌋ else -⌊-x + 1/2⌋

/-- Excel `ROUND(x, 2)`. -/
def round2 (x : ℚ) : ℚ :=
  (roundHalfAwayFromZero (x * 100) : ℚ) / 100

/-- Final-GPA column Y: `IF(AD,0,MIN(5,ROUND(AN+AO,2)))`. -/
def col_Y (r : StudentRecord) : ℚ :=
  if col_AD r then 0 else min 5 (round2 (col_AN r + col_AO r))

/-- Overall-grade column Z:
`IF(Y>=5,"A+",IF(Y>=4,"A",IF(Y>=3.5,"A-",IF(Y>=3,"B",IF(Y>=2,"C",
IF(Y>=1,"D","F"))))))`. -/
def col_Z (r : StudentRecord) : String :=
  if col_Y r ≥ 5 then "A+"
  else if col_Y r ≥ 4 then "A"
  else if col_Y r ≥ 3.5 then "A-"
  else if col_Y r ≥ 3 then "B"
  else if col_Y r ≥ 2 then "C"
  else if col_Y r ≥ 1 then "D"
  else "F"

end Excel

/-! ### Helper lemmas -/

theorem grade_point_eq_bandIF (m f : ℚ) :
    calculate_grade_point m f = Excel.bandIF (m / f * 100) := rfl

theorem bandIF_nonneg (p : ℚ) : 0 ≤ Excel.bandIF p := by
  unfold Excel.bandIF
  split_ifs <;> norm_num

theorem bandIF_le_five (p : ℚ) : Excel.bandIF p ≤ 5 := by
  unfold Excel.bandIF
  split_ifs <;> norm_num

theorem bandIF_mono {p q : ℚ} (h : p ≤ q) : Excel.bandIF p ≤ Excel.bandIF q := by
  unfold Excel.bandIF
  split_ifs <;> linarith

theorem bandIF_mem (p : ℚ) :
    Excel.bandIF p ∈ ({0, 1, 2, 3, 3.5, 4, 5} : Set ℚ) := by
  unfold Excel.bandIF
  split_ifs <;> simp

theorem one_le_bandIF {p : ℚ} (h : 33 ≤ p) : 1 ≤ Excel.bandIF p := by
  unfold Excel.bandIF
  split_ifs <;> linarith

theorem bandIF_eq_zero_of_lt {p : ℚ} (h : p < 33) : Excel.bandIF p = 0 := by
  unfold Excel.bandIF
  split_ifs <;> first | rfl | linarith

theorem floor_le_roundHalfToEven (x : ℚ) : ⌊x⌋ ≤ roundHalfToEven x := by
  unfold roundHalfToEven
  split_ifs <;> omega

theorem intCast_le_roundHalfToEven {n : ℤ} {x : ℚ} (h : (n : ℚ) ≤ x) :
    n ≤ roundHalfToEven x := by
  have h1 : n ≤ ⌊x⌋ := Int.le_floor.mpr h
  have h2 := floor_le_roundHalfToEven x
  omega

theorem roundHalfToEven_nonneg {x : ℚ} (h : 0 ≤ x) : 0 ≤ roundHalfToEven x := by
  have : ((0 : ℤ) : ℚ) ≤ x := by exact_mod_cast h
  exact intCast_le_roundHalfToEven this

theorem pythonRound2_nonneg {x : ℚ} (h : 0 ≤ x) : 0 ≤ pythonRound2 x := by
  unfold pythonRound2
  have h1 : 0 ≤ roundHalfToEven (x * 100) :=
    roundHalfToEven_nonneg (by linarith)
  have h2 : (0 : ℚ) ≤ (roundHalfToEven (x * 100) : ℚ) := by exact_mod_cast h1
  linarith

theorem intCast_le_pythonRound2 {n : ℤ} {x : ℚ} (h : (n : ℚ) ≤ x) :
    (n : ℚ) ≤ pythonRound2 x := by
  unfold pythonRound2
  have h1 : ((100 * n : ℤ) : ℚ) ≤ x * 100 := by push_cast; linarith
  have h2 : (100 * n : ℤ) ≤ roundHalfToEven (x * 100) :=
    intCast_le_roundHalfToEven h1
  have h3 : ((100 * n : ℤ) : ℚ) ≤ (roundHalfToEven (x * 100) : ℚ) := by
    exact_mod_cast h2
  push_cast at h3
  linarith

theorem pythonRound2_pos {x : ℚ} (h : 1/8 ≤ x) : 0 < pythonRound2 x := by
  unfold pythonRound2
  have h1 : ((12 : ℤ) : ℚ) ≤ x * 100 := by push_cast; linarith
  have h2 : (12 : ℤ) ≤ roundHalfToEven (x * 100) := intCast_le_roundHalfToEven h1
  have h3 : ((12 : ℤ) : ℚ) ≤ (roundHalfToEven (x * 100) : ℚ) := by exact_mod_cast h2
  push_cast at h3
  linarith

/-- Python `round` and Excel `ROUND` agree on every nonnegative value that is
not an exact tie between two integers. -/
theorem roundHalfToEven_eq_awayFromZero {x : ℚ} (h0 : 0 ≤ x)
    (h : Int.fract x ≠ 1/2) : roundHalfToEven x = Excel.roundHalfAwayFromZero x := by
  have hfr : Int.fract x = x - ⌊x⌋ := rfl
  have hge : (0 : ℚ) ≤ x - ⌊x⌋ := by
    have := Int.fract_nonneg x
    rw [hfr] at this
    exact this
  have hlt : x - ⌊x⌋ < 1 := by
    have := Int.fract_lt_one x
    rw [hfr] at this
    exact this
  unfold roundHalfToEven Excel.roundHalfAwayFromZero
  rw [if_pos h0]
  rcases lt_trichotomy (x - ⌊x⌋) (1/2) with hc | hc | hc
  · rw [if_pos hc]
    symm
    rw [Int.floor_eq_iff]
    exact ⟨by linarith, by linarith⟩
  · exfalso
    exact h (by rw [hfr, hc])
  · rw [if_neg (by linarith), if_pos hc]
    symm
    rw [Int.floor_eq_iff]
    constructor
    · push_cast
      linarith
    · push_cast
      linarith

theorem gpa_zero_of_anyFail (r : StudentRecord) (h : anyFail r) :
    calculate_gpa_dakhil r = 0 := by
  unfold anyFail at h
  unfold calculate_gpa_dakhil
  split_ifs <;> first | rfl | tauto

theorem gpa_of_not_anyFail (r : StudentRecord) (h : ¬ anyFail r) :
    calculate_gpa_dakhil r = min 5 (pythonRound2 (gpa_before_round r)) := by
  unfold anyFail at h
  push_neg at h
  obtain ⟨h1, h2, h3, h4, h5, h6, h7, h8, h9⟩ := h
  unfold calculate_gpa_dakhil
  rw [if_neg h1, if_neg h2, if_neg h3, if_neg h4, if_neg h5, if_neg h6,
    if_neg h7, if_neg h8, if_neg h9]

theorem col_AM_eq_mantiq_gp (r : StudentRecord) : Excel.col_AM r = mantiq_gp r := by
  unfold Excel.col_AM mantiq_gp
  rw [grade_point_eq_bandIF]
  have harg : r.mantiq / 100 * 100 = r.mantiq := by ring
  rw [harg]
  split_ifs with h
  · exact (bandIF_eq_zero_of_lt h).symm
  · rfl

theorem gpa_before_round_eq (r : StudentRecord) :
    gpa_before_round r = base_gpa r + Excel.col_AO r := by
  unfold gpa_before_round Excel.col_AO
  rw [col_AM_eq_mantiq_gp]
  split_ifs <;> ring

theorem anyFail_iff_col_AD (r : StudentRecord) : anyFail r ↔ Excel.col_AD r := by
  unfold anyFail Excel.col_AD quran_Hadith_fails arabic_fails aqaid_fails
    english_fails bangla_fails mathematics_fails islamic_History_fails
    ict_fails continuous_assessment_fails Excel.col_AA Excel.col_AB Excel.col_AC
    bangla_individual_pass bangla_combined_pass
  constructor
  · intro h
    rcases h with h | h | h | h | h | h | h | h | h
    · exact Or.inl (by linarith)
    · exact Or.inr (Or.inl (by linarith))
    · exact Or.inr (Or.inr (Or.inl (by linarith)))
    · exact Or.inr (Or.inr (Or.inr (Or.inl (by linarith))))
    · exact Or.inr (Or.inr (Or.inr (Or.inr (Or.inl h))))
    · refine Or.inr (Or.inr (Or.inr (Or.inr (Or.inr (Or.inl ?_)))))
      by_contra hc
      push_neg at hc
      exact h ⟨hc.1, hc.2⟩
    · refine Or.inr (Or.inr (Or.inr (Or.inr (Or.inr (Or.inr (Or.inl ?_))))))
      by_contra hc
      push_neg at hc
      exact h ⟨hc.1, hc.2⟩
    · exact Or.inr (Or.inr (Or.inr (Or.inr (Or.inr (Or.inr (Or.inr (Or.inl (by linarith))))))))
    · exact Or.inr (Or.inr (Or.inr (Or.inr (Or.inr (Or.inr (Or.inr (Or.inr h)))))))
  · intro h
    rcases h with h | h | h | h | h | h | h | h | h | h
    · exact Or.inl (by linarith)
    · exact Or.inr (Or.inl (by linarith))
    · exact Or.inr (Or.inr (Or.inl (by linarith)))
    · exact Or.inr (Or.inr (Or.inr (Or.inl (by linarith))))
    · exact Or.inr (Or.inr (Or.inr (Or.inr (Or.inl h))))
    · refine Or.inr (Or.inr (Or.inr (Or.inr (Or.inr (Or.inl ?_)))))
      rintro ⟨h1, h2⟩
      rcases h with h | h <;> linarith
    · refine Or.inr (Or.inr (Or.inr (Or.inr (Or.inr (Or.inr (Or.inl ?_))))))
      rintro ⟨h1, h2⟩
      rcases h with h | h <;> linarith
    · exact Or.inr (Or.inr (Or.inr (Or.inr (Or.inr (Or.inr (Or.inr (Or.inl (by linarith))))))))
    · exact Or.inr (Or.inr (Or.inr (Or.inr (Or.inr (Or.inr (Or.inr (Or.inr (Or.inl h))))))))
    · exact Or.inr (Or.inr (Or.inr (Or.inr (Or.inr (Or.inr (Or.inr (Or.inr (Or.inr h))))))))

theorem grade_point_nonneg (m f : ℚ) : 0 ≤ calculate_grade_point m f := by
  rw [grade_point_eq_bandIF]
  exact bandIF_nonneg _

theorem base_gpa_eq_sum (r : StudentRecord) :
    base_gpa r =
      (calculate_grade_point (r.quran + r.hadith) 200 +
       calculate_grade_point (r.arabic_I + r.arabic_II) 200 +
       calculate_grade_point r.aqaid 100 +
       calculate_grade_point (r.english_I + r.english_II) 200 +
       calculate_grade_point
         (r.bangla_I_MCQ + r.bangla_I_Written + r.bangla_II_MCQ + r.bangla_II_Written) 200 +
       calculate_grade_point (r.mathematics_MCQ + r.mathematics_Written) 100 +
       calculate_grade_point (r.islamic_History_MCQ + r.islamic_History_Written) 100 +
       calculate_grade_point r.ict 50) / 8 := by
  unfold base_gpa grade_points
  simp [List.sum_cons, List.sum_nil]
  ring

theorem base_gpa_nonneg (r : StudentRecord) : 0 ≤ base_gpa r := by
  rw [base_gpa_eq_sum]
  have g1 := grade_point_nonneg (r.quran + r.hadith) 200
  have g2 := grade_point_nonneg (r.arabic_I + r.arabic_II) 200
  have g3 := grade_point_nonneg r.aqaid 100
  have g4 := grade_point_nonneg (r.english_I + r.english_II) 200
  have g5 := grade_point_nonneg
    (r.bangla_I_MCQ + r.bangla_I_Written + r.bangla_II_MCQ + r.bangla_II_Written) 200
  have g6 := grade_point_nonneg (r.mathematics_MCQ + r.mathematics_Written) 100
  have g7 := grade_point_nonneg (r.islamic_History_MCQ + r.islamic_History_Written) 100
  have g8 := grade_point_nonneg r.ict 50
  linarith

theorem gpa_before_round_nonneg (r : StudentRecord) : 0 ≤ gpa_before_round r := by
  unfold gpa_before_round
  have hb := base_gpa_nonneg r
  split_ifs with h
  · linarith
  · exact hb

theorem col_AN_eq_base_gpa (r : StudentRecord) (h : ¬ Excel.col_AD r) :
    Excel.col_AN r = base_gpa r := by
  unfold Excel.col_AD at h
  push_neg at h
  obtain ⟨h1, h2, h3, h4, h5, h6, h7, h8, -, -⟩ := h
  rw [Excel.col_AN, Excel.col_AE, Excel.col_AF, Excel.col_AG, Excel.col_AH,
    Excel.col_AI, Excel.col_AJ, Excel.col_AK, Excel.col_AL]
  rw [if_neg (not_lt.mpr h1), if_neg (not_lt.mpr h2), if_neg (not_lt.mpr h3),
    if_neg (not_lt.mpr h4), if_neg h5, if_neg h6, if_neg h7,
    if_neg (not_lt.mpr h8)]
  rw [base_gpa_eq_sum]
  simp only [grade_point_eq_bandIF]
  rw [show (r.quran + r.hadith) / 200 * 100 = (r.quran + r.hadith) / 2 from by ring,
    show (r.arabic_I + r.arabic_II) / 200 * 100 = (r.arabic_I + r.arabic_II) / 2 from by ring,
    show r.aqaid / 100 * 100 = r.aqaid from by ring,
    show (r.english_I + r.english_II) / 200 * 100 = (r.english_I + r.english_II) / 2 from by ring,
    show (r.bangla_I_MCQ + r.bangla_I_Written + r.bangla_II_MCQ + r.bangla_II_Written) / 200 * 100
       = (r.bangla_I_MCQ + r.bangla_I_Written + r.bangla_II_MCQ + r.bangla_II_Written) / 2 from by ring,
    show (r.mathematics_MCQ + r.mathematics_Written) / 100 * 100
       = r.mathematics_MCQ + r.mathematics_Written from by ring,
    show (r.islamic_History_MCQ + r.islamic_History_Written) / 100 * 100
       = r.islamic_History_MCQ + r.islamic_History_Written from by ring,
    show r.ict / 50 * 100 = r.ict * 2 from by ring]

theorem col_AO_nonneg (r : StudentRecord) : 0 ≤ Excel.col_AO r := by
  unfold Excel.col_AO
  split_ifs with h
  · linarith
  · linarith

theorem col_AN_nonneg (r : StudentRecord) : 0 ≤ Excel.col_AN r := by
  have hAE : 0 ≤ Excel.col_AE r := by
    unfold Excel.col_AE
    split_ifs
    · linarith
    · exact bandIF_nonneg _
  have hAF : 0 ≤ Excel.col_AF r := by
    unfold Excel.col_AF
    split_ifs
    · linarith
    · exact bandIF_nonneg _
  have hAG : 0 ≤ Excel.col_AG r := by
    unfold Excel.col_AG
    split_ifs
    · linarith
    · exact bandIF_nonneg _
  have hAH : 0 ≤ Excel.col_AH r := by
    unfold Excel.col_AH
    split_ifs
    · linarith
    · exact bandIF_nonneg _
  have hAI : 0 ≤ Excel.col_AI r := by
    unfold Excel.col_AI
    split_ifs
    · linarith
    · exact bandIF_nonneg _
  have hAJ : 0 ≤ Excel.col_AJ r := by
    unfold Excel.col_AJ
    split_ifs
    · linarith
    · exact bandIF_nonneg _
  have hAK : 0 ≤ Excel.col_AK r := by
    unfold Excel.col_AK
    split_ifs
    · linarith
    · exact bandIF_nonneg _
  have hAL : 0 ≤ Excel.col_AL r := by
    unfold Excel.col_AL
    split_ifs
    · linarith
    · exact bandIF_nonneg _
  unfold Excel.col_AN
  linarith

theorem min_five_pythonRound2_of_five_le {x : ℚ} (h : 5 ≤ x) :
    min 5 (pythonRound2 x) = 5 := by
  have h1 : ((5 : ℤ) : ℚ) ≤ x := by push_cast; linarith
  have h2 := intCast_le_pythonRound2 h1
  push_cast at h2
  exact min_eq_left h2

/-! ### Concrete records used by witnesses and counterexamples

Field order: quran, hadith, arabic_I, arabic_II, aqaid, english_I,
english_II, bangla_I_MCQ, bangla_I_Written, bangla_II_MCQ,
bangla_II_Written, mathematics_MCQ, mathematics_Written,
islamic_History_MCQ, islamic_History_Written, ict, mantiq,
career_Education, physical_Education. -/

/-- All-zero record: every subject fails. -/
def recC1 : StudentRecord :=
  ⟨0, 0, 0, 0, 0, 0, 0, 0, 0, 0, 0, 0, 0, 0, 0, 0, 0, 0, 0⟩

/-- Record whose pre-rounding GPA is exactly 3.125, a two-decimal tie:
grade points 5, 5, 4, 5, 3, 2, 1, 0 and no Mantiq bonus. -/
def recC2 : StudentRecord :=
  ⟨80, 80, 80, 80, 70, 80, 80, 15, 40, 15, 40, 15, 30, 10, 25, 9, 0, 50, 50⟩

/-- All compulsory subjects at exactly 80% of full marks; Mantiq 0. -/
def recC2w : StudentRecord :=
  ⟨80, 80, 80, 80, 80, 80, 80, 24, 56, 24, 56, 24, 56, 24, 56, 40, 0, 33, 33⟩

/-- Every compulsory subject at grade point 3.0 (base GPA 3.0), Mantiq at
60 marks (grade point 3.5). -/
def recC3 : StudentRecord :=
  ⟨50, 50, 50, 50, 50, 50, 50, 15, 40, 15, 40, 15, 35, 15, 35, 25, 60, 50, 50⟩

/-- Bangla marks 8/25/15/25 (term-1 MCQ below the individual minimum but the
combined route passes); every other subject passes. -/
def recC4 : StudentRecord :=
  ⟨80, 80, 80, 80, 80, 80, 80, 8, 25, 15, 25, 15, 35, 15, 35, 40, 0, 50, 50⟩

/-- All subjects pass; Mantiq at 50 marks (grade point exactly 3.0). -/
def recC5 : StudentRecord :=
  ⟨50, 50, 50, 50, 50, 50, 50, 15, 40, 15, 40, 15, 35, 15, 35, 25, 50, 50, 50⟩

/-- All-zero record used to instantiate the GPA range claim. -/
def recC7 : StudentRecord :=
  ⟨0, 0, 0, 0, 0, 0, 0, 0, 0, 0, 0, 0, 0, 0, 0, 0, 0, 0, 0⟩

/-- ICT mark 8, below the 8.25 minimum; every other subject passes. -/
def recC8 : StudentRecord :=
  ⟨80, 80, 80, 80, 80, 80, 80, 15, 40, 15, 40, 15, 35, 15, 35, 8, 0, 50, 50⟩

/-- All compulsory subjects at exactly 80% of full marks, continuous
assessment at 33. -/
def recC9 : StudentRecord :=
  ⟨80, 80, 80, 80, 80, 80, 80, 24, 56, 24, 56, 24, 56, 24, 56, 40, 0, 33, 33⟩

/-- ICT mark 9: passes the 8.25 minimum but is only 18%, grade point 0;
everything else passes with grade points 5, 5, 4, 5, 3, 3, 3. -/
def recC10 : StudentRecord :=
  ⟨80, 80, 80, 80, 70, 80, 80, 15, 40, 15, 40, 15, 35, 15, 35, 9, 0, 50, 50⟩

/-! ### Claims -/

/-- Claim C1: for every well-formed record, if any compulsory subject fails
its pass condition or either continuous-assessment mark is below 33, then
`calculate_gpa_dakhil` returns 0.0 and the letter grade derived from it
is F, regardless of the other subjects' scores. -/
theorem claim_C1 (r : StudentRecord) (hw : wellFormed r) (hf : anyFail r) :
    calculate_gpa_dakhil r = 0 ∧
    calculate_letter_grade (calculate_gpa_dakhil r) = "F" := by
  have h0 := gpa_zero_of_anyFail r hf
  refine ⟨h0, ?_⟩
  rw [h0]
  norm_num [calculate_letter_grade]

/-- Witness for C1 at the all-zero record. -/
theorem claim_C1_witness :
    calculate_gpa_dakhil recC1 = 0 ∧
    calculate_letter_grade (calculate_gpa_dakhil recC1) = "F" :=
  claim_C1 recC1 (by norm_num [wellFormed, recC1])
    (Or.inl (by norm_num [quran_Hadith_fails, recC1]))

/-- Claim C10: there is a well-formed record for which `calculate_gpa_dakhil`
returns a GPA strictly greater than 0 while one compulsory subject's grade
point is 0.0 and that zero is still averaged into the base GPA: ICT mark 9
passes the 8.25 minimum but its 18% is below the lowest band. -/
theorem claim_C10 :
    wellFormed recC10 ∧
    calculate_grade_point recC10.ict 50 = 0 ∧
    grade_points recC10 = [5, 5, 4, 5, 3, 3, 3, 0] ∧
    base_gpa recC10 = 3.5 ∧
    calculate_gpa_dakhil recC10 = 3.5 ∧
    0 < calculate_gpa_dakhil recC10 := by
  have hg : calculate_gpa_dakhil recC10 = 3.5 := by
    norm_num [calculate_gpa_dakhil, recC10, quran_Hadith_fails, arabic_fails,
      aqaid_fails, english_fails, bangla_fails, bangla_individual_pass,
      bangla_combined_pass, mathematics_fails, islamic_History_fails,
      ict_fails, continuous_assessment_fails, gpa_before_round, mantiq_gp,
      base_gpa, grade_points, calculate_grade_point, pythonRound2,
      roundHalfToEven, min_def]
  refine ⟨?_, ?_, ?_, ?_, hg, ?_⟩
  · norm_num [wellFormed, recC10]
  · norm_num [calculate_grade_point, recC10]
  · norm_num [grade_points, recC10, calculate_grade_point]
  · norm_num [base_gpa, grade_points, recC10, calculate_grade_point]
  · rw [hg]
    norm_num

/-- Claim C2 counterexample: at `recC2` the pre-rounding GPA is exactly
3.125; Python's banker's rounding gives 3.12 while the spreadsheet's
`ROUND` gives 3.13, so the two encodings are not equivalent. -/
theorem claim_C2_counterexample :
    wellFormed recC2 ∧
    calculate_gpa_dakhil recC2 = 3.12 ∧
    Excel.col_Y recC2 = 3.13 ∧
    calculate_gpa_dakhil recC2 ≠ Excel.col_Y recC2 := by
  have h1 : calculate_gpa_dakhil recC2 = 3.12 := by
    norm_num [calculate_gpa_dakhil, recC2, quran_Hadith_fails, arabic_fails,
      aqaid_fails, english_fails, bangla_fails, bangla_individual_pass,
      bangla_combined_pass, mathematics_fails, islamic_History_fails,
      ict_fails, continuous_assessment_fails, gpa_before_round, mantiq_gp,
      base_gpa, grade_points, calculate_grade_point, pythonRound2,
      roundHalfToEven, min_def]
  have h2 : Excel.col_Y recC2 = 3.13 := by
    norm_num [Excel.col_Y, Excel.col_AD, Excel.col_AA, Excel.col_AB,
      Excel.col_AC, Excel.col_AE, Excel.col_AF, Excel.col_AG, Excel.col_AH,
      Excel.col_AI, Excel.col_AJ, Excel.col_AK, Excel.col_AL, Excel.col_AM,
      Excel.col_AN, Excel.col_AO, Excel.bandIF, Excel.round2,
      Excel.roundHalfAwayFromZero, recC2, min_def]
  refine ⟨by norm_num [wellFormed, recC2], h1, h2, ?_⟩
  rw [h1, h2]
  norm_num

/-- Claim C2, amended: the Python function and the spreadsheet rendering
compute the same final GPA on every record whose pre-rounding GPA is not an
exact tie at the second decimal (Python rounds such ties half-to-even,
Excel's `ROUND` rounds them half-away-from-zero). -/
theorem claim_C2_amended (r : StudentRecord)
    (h : Int.fract ((Excel.col_AN r + Excel.col_AO r) * 100) ≠ 1/2) :
    calculate_gpa_dakhil r = Excel.col_Y r := by
  by_cases hf : anyFail r
  · rw [gpa_zero_of_anyFail r hf, Excel.col_Y,
      if_pos ((anyFail_iff_col_AD r).mp hf)]
  · have hAD : ¬ Excel.col_AD r := fun hc => hf ((anyFail_iff_col_AD r).mpr hc)
    rw [gpa_of_not_anyFail r hf, Excel.col_Y, if_neg hAD]
    have hsum : gpa_before_round r = Excel.col_AN r + Excel.col_AO r := by
      rw [gpa_before_round_eq, col_AN_eq_base_gpa r hAD]
    have hnn : 0 ≤ (Excel.col_AN r + Excel.col_AO r) * 100 := by
      have := col_AN_nonneg r
      have := col_AO_nonneg r
      nlinarith
    rw [hsum]
    unfold pythonRound2 Excel.round2
    rw [roundHalfToEven_eq_awayFromZero hnn h]

/-- Witness for the amended C2 at a record with pre-rounding GPA 5.00. -/
theorem claim_C2_witness :
    Int.fract ((Excel.col_AN recC2w + Excel.col_AO recC2w) * 100) ≠ 1/2 ∧
    calculate_gpa_dakhil recC2w = Excel.col_Y recC2w := by
  have h : Int.fract ((Excel.col_AN recC2w + Excel.col_AO recC2w) * 100) ≠ 1/2 := by
    norm_num [Excel.col_AN, Excel.col_AO, Excel.col_AM, Excel.col_AE,
      Excel.col_AF, Excel.col_AG, Excel.col_AH, Excel.col_AI, Excel.col_AJ,
      Excel.col_AK, Excel.col_AL, Excel.col_AA, Excel.col_AB, Excel.col_AC,
      Excel.bandIF, recC2w, Int.fract]
  exact ⟨h, claim_C2_amended recC2w h⟩

/-- Claim C3: for every well-formed record in which every subject passes,
base GPA exactly 3.0 and optional grade point 3.5, the bonus (3.5-2)/8 =
0.1875 is added and `calculate_gpa_dakhil` returns round(3.1875, 2) = 3.19,
with letter grade B. -/
theorem claim_C3 (r : StudentRecord) (hw : wellFormed r) (hp : ¬ anyFail r)
    (hb : base_gpa r = 3) (hm : mantiq_gp r = 3.5) :
    gpa_before_round r = 3.1875 ∧
    calculate_gpa_dakhil r = 3.19 ∧
    calculate_letter_grade (calculate_gpa_dakhil r) = "B" := by
  have hgbr : gpa_before_round r = 3.1875 := by
    unfold gpa_before_round
    simp only [hm, hb]
    norm_num
  have hg : calculate_gpa_dakhil r = 3.19 := by
    rw [gpa_of_not_anyFail r hp, hgbr]
    norm_num [pythonRound2, roundHalfToEven, min_def]
  exact ⟨hgbr, hg, by rw [hg]; norm_num [calculate_letter_grade]⟩

/-- Witness for C3 at a record with base GPA 3.0 and Mantiq mark 60. -/
theorem claim_C3_witness :
    gpa_before_round recC3 = 3.1875 ∧
    calculate_gpa_dakhil recC3 = 3.19 ∧
    calculate_letter_grade (calculate_gpa_dakhil recC3) = "B" :=
  claim_C3 recC3 (by norm_num [wellFormed, recC3])
    (by
      norm_num [anyFail, quran_Hadith_fails, arabic_fails, aqaid_fails,
        english_fails, bangla_fails, bangla_individual_pass,
        bangla_combined_pass, mathematics_fails, islamic_History_fails,
        ict_fails, continuous_assessment_fails, recC3])
    (by norm_num [base_gpa, grade_points, calculate_grade_point, recC3])
    (by norm_num [mantiq_gp, calculate_grade_point, recC3])

/-- Claim C4: when every non-Bangla check passes, `calculate_gpa_dakhil`
returns 0 exactly when Bangla passes neither the individual route (each
MCQ ≥ 10 and each Written ≥ 23) nor the combined route (total MCQ ≥ 20 and
total Written ≥ 46). -/
theorem claim_C4 (r : StudentRecord)
    (h1 : ¬ quran_Hadith_fails r) (h2 : ¬ arabic_fails r)
    (h3 : ¬ aqaid_fails r) (h4 : ¬ english_fails r)
    (h5 : ¬ mathematics_fails r) (h6 : ¬ islamic_History_fails r)
    (h7 : ¬ ict_fails r) (h8 : ¬ continuous_assessment_fails r) :
    calculate_gpa_dakhil r = 0 ↔
      ¬ (bangla_individual_pass r ∨ bangla_combined_pass r) := by
  constructor
  · intro hz
    by_contra hb
    have hnf : ¬ anyFail r := by
      unfold anyFail bangla_fails
      tauto
    rw [gpa_of_not_anyFail r hnf] at hz
    have hq : 66 ≤ r.quran + r.hadith := by
      unfold quran_Hadith_fails at h1
      push_neg at h1
      linarith
    have hgp1 : 1 ≤ calculate_grade_point (r.quran + r.hadith) 200 := by
      rw [grade_point_eq_bandIF]
      apply one_le_bandIF
      rw [show (r.quran + r.hadith) / 200 * 100 = (r.quran + r.hadith) / 2 from by ring]
      linarith
    have hbase : 1/8 ≤ base_gpa r := by
      rw [base_gpa_eq_sum]
      have g2 := grade_point_nonneg (r.arabic_I + r.arabic_II) 200
      have g3 := grade_point_nonneg r.aqaid 100
      have g4 := grade_point_nonneg (r.english_I + r.english_II) 200
      have g5 := grade_point_nonneg
        (r.bangla_I_MCQ + r.bangla_I_Written + r.bangla_II_MCQ + r.bangla_II_Written) 200
      have g6 := grade_point_nonneg (r.mathematics_MCQ + r.mathematics_Written) 100
      have g7 := grade_point_nonneg (r.islamic_History_MCQ + r.islamic_History_Written) 100
      have g8 := grade_point_nonneg r.ict 50
      linarith
    have hgbr : 1/8 ≤ gpa_before_round r := by
      unfold gpa_before_round
      split_ifs with h
      · linarith
      · exact hbase
    have hpos : 0 < min 5 (pythonRound2 (gpa_before_round r)) :=
      lt_min (by norm_num) (pythonRound2_pos hgbr)
    exact ne_of_gt hpos hz
  · intro hb
    exact gpa_zero_of_anyFail r (Or.inr (Or.inr (Or.inr (Or.inr (Or.inl hb)))))

/-- Witness for C4: Bangla marks 8/25/15/25 pass via the combined route. -/
theorem claim_C4_witness :
    bangla_combined_pass recC4 ∧
    (calculate_gpa_dakhil recC4 = 0 ↔
      ¬ (bangla_individual_pass recC4 ∨ bangla_combined_pass recC4)) :=
  ⟨by norm_num [bangla_combined_pass, recC4],
   claim_C4 recC4
    (by norm_num [quran_Hadith_fails, recC4])
    (by norm_num [arabic_fails, recC4])
    (by norm_num [aqaid_fails, recC4])
    (by norm_num [english_fails, recC4])
    (by norm_num [mathematics_fails, recC4])
    (by norm_num [islamic_History_fails, recC4])
    (by norm_num [ict_fails, recC4])
    (by norm_num [continuous_assessment_fails, recC4])⟩

/-- Claim C5: in the passing case the GPA before rounding/clamping is the
base GPA plus `(mantiq_gp - 2)/8` when the optional grade point is ≥ 2.0,
and exactly the base GPA when it is below 2.0; a grade point of exactly 2.0
yields zero bonus. -/
theorem claim_C5 (r : StudentRecord) (hw : wellFormed r) (hp : ¬ anyFail r) :
    calculate_gpa_dakhil r = min 5 (pythonRound2 (gpa_before_round r)) ∧
    (2 ≤ mantiq_gp r → gpa_before_round r = base_gpa r + (mantiq_gp r - 2) / 8) ∧
    (mantiq_gp r < 2 → gpa_before_round r = base_gpa r) ∧
    (mantiq_gp r = 2 → gpa_before_round r = base_gpa r) := by
  refine ⟨gpa_of_not_anyFail r hp, ?_, ?_, ?_⟩
  · intro h
    unfold gpa_before_round
    rw [if_pos h]
  · intro h
    unfold gpa_before_round
    rw [if_neg (not_le.mpr h)]
  · intro h
    unfold gpa_before_round
    rw [if_pos (le_of_eq h.symm), h]
    ring

/-- Witness for C5 at a record whose Mantiq grade point is 3.0. -/
theorem claim_C5_witness :
    calculate_gpa_dakhil recC5 = min 5 (pythonRound2 (gpa_before_round recC5)) ∧
    (2 ≤ mantiq_gp recC5 →
      gpa_before_round recC5 = base_gpa recC5 + (mantiq_gp recC5 - 2) / 8) ∧
    (mantiq_gp recC5 < 2 → gpa_before_round recC5 = base_gpa recC5) ∧
    (mantiq_gp recC5 = 2 → gpa_before_round recC5 = base_gpa recC5) :=
  claim_C5 recC5 (by norm_num [wellFormed, recC5])
    (by
      norm_num [anyFail, quran_Hadith_fails, arabic_fails, aqaid_fails,
        english_fails, bangla_fails, bangla_individual_pass,
        bangla_combined_pass, mathematics_fails, islamic_History_fails,
        ict_fails, continuous_assessment_fails, recC5])

/-- Claim C6: `calculate_grade_point` returns exactly the band of
`percentage = marks/fullMarks*100`; its output is always one of
{0, 1, 2, 3, 3.5, 4, 5} and is monotonically non-decreasing in the
percentage. -/
theorem claim_C6 (m f : ℚ) (hf : 0 < f) :
    calculate_grade_point m f ∈ ({0, 1, 2, 3, 3.5, 4, 5} : Set ℚ) ∧
    (∀ m2 f2 : ℚ, 0 < f2 → m / f * 100 ≤ m2 / f2 * 100 →
      calculate_grade_point m f ≤ calculate_grade_point m2 f2) ∧
    (m / f * 100 ≥ 80 → calculate_grade_point m f = 5) ∧
    (m / f * 100 < 80 → m / f * 100 ≥ 70 → calculate_grade_point m f = 4) ∧
    (m / f * 100 < 70 → m / f * 100 ≥ 60 → calculate_grade_point m f = 3.5) ∧
    (m / f * 100 < 60 → m / f * 100 ≥ 50 → calculate_grade_point m f = 3) ∧
    (m / f * 100 < 50 → m / f * 100 ≥ 40 → calculate_grade_point m f = 2) ∧
    (m / f * 100 < 40 → m / f * 100 ≥ 33 → calculate_grade_point m f = 1) ∧
    (m / f * 100 < 33 → calculate_grade_point m f = 0) := by
  refine ⟨?_, ?_, ?_, ?_, ?_, ?_, ?_, ?_, ?_⟩
  · rw [grade_point_eq_bandIF]
    exact bandIF_mem _
  · intro m2 f2 hf2 hle
    rw [grade_point_eq_bandIF, grade_point_eq_bandIF]
    exact bandIF_mono hle
  · intro h
    rw [grade_point_eq_bandIF]
    unfold Excel.bandIF
    rw [if_pos h]
  · intro h0 h
    rw [grade_point_eq_bandIF]
    unfold Excel.bandIF
    rw [if_neg (not_le.mpr h0), if_pos h]
  · intro h0 h
    rw [grade_point_eq_bandIF]
    unfold Excel.bandIF
    rw [if_neg (by linarith : ¬ m / f * 100 ≥ 80), if_neg (not_le.mpr h0), if_pos h]
  · intro h0 h
    rw [grade_point_eq_bandIF]
    unfold Excel.bandIF
    rw [if_neg (by linarith : ¬ m / f * 100 ≥ 80),
      if_neg (by linarith : ¬ m / f * 100 ≥ 70), if_neg (not_le.mpr h0), if_pos h]
  · intro h0 h
    rw [grade_point_eq_bandIF]
    unfold Excel.bandIF
    rw [if_neg (by linarith : ¬ m / f * 100 ≥ 80),
      if_neg (by linarith : ¬ m / f * 100 ≥ 70),
      if_neg (by linarith : ¬ m / f * 100 ≥ 60), if_neg (not_le.mpr h0), if_pos h]
  · intro h0 h
    rw [grade_point_eq_bandIF]
    unfold Excel.bandIF
    rw [if_neg (by linarith : ¬ m / f * 100 ≥ 80),
      if_neg (by linarith : ¬ m / f * 100 ≥ 70),
      if_neg (by linarith : ¬ m / f * 100 ≥ 60),
      if_neg (by linarith : ¬ m / f * 100 ≥ 50), if_neg (not_le.mpr h0), if_pos h]
  · intro h0
    rw [grade_point_eq_bandIF]
    unfold Excel.bandIF
    rw [if_neg (by linarith : ¬ m / f * 100 ≥ 80),
      if_neg (by linarith : ¬ m / f * 100 ≥ 70),
      if_neg (by linarith : ¬ m / f * 100 ≥ 60),
      if_neg (by linarith : ¬ m / f * 100 ≥ 50),
      if_neg (by linarith : ¬ m / f * 100 ≥ 40), if_neg (not_le.mpr h0)]

/-- Witness for C6 at marks 55 of 100. -/
theorem claim_C6_witness :
    calculate_grade_point 55 100 ∈ ({0, 1, 2, 3, 3.5, 4, 5} : Set ℚ) :=
  (claim_C6 55 100 (by norm_num)).1

/-- Claim C7: for every well-formed record, the final GPA returned by
`calculate_gpa_dakhil` lies in the closed interval [0, 5]. -/
theorem claim_C7 (r : StudentRecord) (hw : wellFormed r) :
    0 ≤ calculate_gpa_dakhil r ∧ calculate_gpa_dakhil r ≤ 5 := by
  by_cases hf : anyFail r
  · rw [gpa_zero_of_anyFail r hf]
    norm_num
  · rw [gpa_of_not_anyFail r hf]
    exact ⟨le_min (by norm_num)
      (pythonRound2_nonneg (gpa_before_round_nonneg r)), min_le_left _ _⟩

/-- Witness for C7 at the all-zero record. -/
theorem claim_C7_witness :
    0 ≤ calculate_gpa_dakhil recC7 ∧ calculate_gpa_dakhil recC7 ≤ 5 :=
  claim_C7 recC7 (by norm_num [wellFormed, recC7])

/-- Claim C8: each simple-threshold subject's failure check is exactly its
configured minimum (66 for the 200-mark combined subjects, 33 for 100-mark
Aqaid, 8.25 for 50-mark ICT), and any such failure forces
`calculate_gpa_dakhil` to return 0. -/
theorem claim_C8 (r : StudentRecord) :
    ((quran_Hadith_fails r ↔ r.quran + r.hadith < 66) ∧
     (arabic_fails r ↔ r.arabic_I + r.arabic_II < 66) ∧
     (english_fails r ↔ r.english_I + r.english_II < 66) ∧
     (aqaid_fails r ↔ r.aqaid < 33) ∧
     (ict_fails r ↔ r.ict < 8.25)) ∧
    (quran_Hadith_fails r ∨ arabic_fails r ∨ aqaid_fails r ∨
     english_fails r ∨ ict_fails r → calculate_gpa_dakhil r = 0) := by
  constructor
  · refine ⟨?_, ?_, ?_, ?_, ?_⟩
    · unfold quran_Hadith_fails
      norm_num
    · unfold arabic_fails
      norm_num
    · unfold english_fails
      norm_num
    · unfold aqaid_fails
      norm_num
    · unfold ict_fails
      norm_num
  · intro h
    apply gpa_zero_of_anyFail
    unfold anyFail
    tauto

/-- Witness for C8: ICT mark 8 is below 8.25, so the GPA is 0 even though
every other subject passes. -/
theorem claim_C8_witness :
    ict_fails recC8 ∧ (ict_fails recC8 ↔ recC8.ict < 8.25) ∧
    calculate_gpa_dakhil recC8 = 0 := by
  have hf : ict_fails recC8 := by norm_num [ict_fails, recC8]
  exact ⟨hf, (claim_C8 recC8).1.2.2.2.2,
    (claim_C8 recC8).2 (Or.inr (Or.inr (Or.inr (Or.inr hf))))⟩

/-- Claim C9: for every well-formed record with continuous-assessment marks
≥ 33 and every compulsory subject scoring exactly 80% of its full marks,
every grade point is 5.0, the base GPA is 5.0, the final GPA is 5.0 and the
letter grade is A+. -/
theorem claim_C9 (r : StudentRecord) (hw : wellFormed r)
    (hca : 33 ≤ r.career_Education) (hpe : 33 ≤ r.physical_Education)
    (h1 : r.quran + r.hadith = 160) (h2 : r.arabic_I + r.arabic_II = 160)
    (h3 : r.aqaid = 80) (h4 : r.english_I + r.english_II = 160)
    (h5 : r.bangla_I_MCQ + r.bangla_I_Written + r.bangla_II_MCQ + r.bangla_II_Written = 160)
    (h6 : r.mathematics_MCQ + r.mathematics_Written = 80)
    (h7 : r.islamic_History_MCQ + r.islamic_History_Written = 80)
    (h8 : r.ict = 40) :
    grade_points r = [5, 5, 5, 5, 5, 5, 5, 5] ∧
    base_gpa r = 5 ∧
    calculate_gpa_dakhil r = 5 ∧
    calculate_letter_grade (calculate_gpa_dakhil r) = "A+" := by
  obtain ⟨-, -, -, -, -, -, -, ⟨-, hJ⟩, ⟨-, hK⟩, ⟨-, hL⟩, ⟨-, hM⟩,
    ⟨-, hN⟩, ⟨-, hO⟩, ⟨-, hP⟩, ⟨-, hQ⟩, -, -, -, -⟩ := hw
  have hgp : grade_points r = [5, 5, 5, 5, 5, 5, 5, 5] := by
    unfold grade_points
    rw [h1, h2, h3, h4, h5, h6, h7, h8]
    norm_num [calculate_grade_point]
  have hbase : base_gpa r = 5 := by
    rw [base_gpa, hgp]
    norm_num
  have hnf : ¬ anyFail r := by
    unfold anyFail
    rintro (f | f | f | f | f | f | f | f | f)
    · unfold quran_Hadith_fails at f
      rw [h1] at f
      norm_num at f
    · unfold arabic_fails at f
      rw [h2] at f
      norm_num at f
    · unfold aqaid_fails at f
      rw [h3] at f
      norm_num at f
    · unfold english_fails at f
      rw [h4] at f
      norm_num at f
    · exact f (Or.inr ⟨by linarith, by linarith⟩)
    · exact f ⟨by linarith, by linarith⟩
    · exact f ⟨by linarith, by linarith⟩
    · unfold ict_fails at f
      rw [h8] at f
      norm_num at f
    · unfold continuous_assessment_fails at f
      rcases f with f | f <;> linarith
  have hfive : 5 ≤ gpa_before_round r := by
    unfold gpa_before_round
    split_ifs with h <;> linarith [hbase]
  have hg : calculate_gpa_dakhil r = 5 := by
    rw [gpa_of_not_anyFail r hnf]
    exact min_five_pythonRound2_of_five_le hfive
  exact ⟨hgp, hbase, hg, by rw [hg]; norm_num [calculate_letter_grade]⟩

/-- Witness for C9 at the record with every compulsory subject at 80%. -/
theorem claim_C9_witness :
    grade_points recC9 = [5, 5, 5, 5, 5, 5, 5, 5] ∧
    base_gpa recC9 = 5 ∧
    calculate_gpa_dakhil recC9 = 5 ∧
    calculate_letter_grade (calculate_gpa_dakhil recC9) = "A+" :=
  claim_C9 recC9 (by norm_num [wellFormed, recC9])
    (by norm_num [recC9]) (by norm_num [recC9]) (by norm_num [recC9])
    (by norm_num [recC9]) (by norm_num [recC9]) (by norm_num [recC9])
    (by norm_num [recC9]) (by norm_num [recC9]) (by norm_num [recC9])
    (by norm_num [recC9])
